import Mathlib

/-!
Verification of the setting-box family of `dbms/include/DB/Interpreters/SettingsCommon.h`:
seven value+changed-flag wrappers (unsigned integer, seconds, milliseconds, float,
load balancing, totals mode, and the parameterized overflow mode), each settable from a
native value, a tagged variant (`Field`), a text form and a binary stream, and
serializable back to the binary stream.

External collaborators that the header uses but that are not part of this repository
(the `Field` variant, `Poco::Timespan`, the varint/string stream helpers, and the
numeric `parse`/`toString` helpers) are modelled from the specification; their doc
comments say so explicitly.  Exception semantics are made explicit: every fallible
`set` entry point returns `Except (Exc × Box) Box`, where the error channel carries the
state of the box at the moment the exception is thrown, so that "no partial mutation"
is a provable statement about the translated control flow rather than an artifact of
the embedding.
-/

namespace DB

/-- Error codes used by the header (`ErrorCodes::...`), plus the generic parse and
stream-read failures raised by the external IO helpers. -/
inductive ErrorCode
  | TYPE_MISMATCH
  | CANNOT_PARSE
  | CANNOT_READ
  | UNKNOWN_LOAD_BALANCING
  | UNKNOWN_TOTALS_MODE
  | UNKNOWN_OVERFLOW_MODE
  | ILLEGAL_OVERFLOW_MODE
  | ARGUMENT_OUT_OF_BOUND
  deriving DecidableEq, Repr

/-- An exception value: a message and an error code, as thrown by
`throw Exception(message, code)` in the header. -/
structure Exc where
  message : String
  code : ErrorCode
  deriving DecidableEq, Repr

/-- Tags of the runtime type stored in a `Field` (`Field::Types::Which`). -/
inductive FieldType
  | Null
  | UInt64
  | Int64
  | Float64
  | String
  deriving DecidableEq, Repr

/-- Modelled from the spec: `DB/Core/Field.h` is not under `src/`; the spec treats the
generic tagged variant as "an opaque value carrier with typed accessors that fail if
the stored type does not match".  Machine floats (`Float64`) are modelled as exact
rationals, since no claim depends on rounding of the binary64 format itself. -/
inductive Field
  | null
  | uint64 (n : Nat)
  | int64 (i : Int)
  | float64 (q : Rat)
  | str (s : String)
  deriving DecidableEq

/-- Runtime type tag of a `Field` (`Field::getType()`). -/
def Field.getType : Field → FieldType
  | .null => .Null
  | .uint64 _ => .UInt64
  | .int64 _ => .Int64
  | .float64 _ => .Float64
  | .str _ => .String

/-- Name of the runtime type of a `Field` (`Field::getTypeName()`). -/
def Field.getTypeName : Field → String
  | .null => "Null"
  | .uint64 _ => "UInt64"
  | .int64 _ => "Int64"
  | .float64 _ => "Float64"
  | .str _ => "String"

/-- Modelled from the spec: `safeGet<UInt64>` on a `Field`, a typed accessor that
fails with a type-mismatch error when the stored type differs. -/
def safeGetUInt64 : Field → Except Exc Nat
  | .uint64 n => .ok n
  | f => .error ⟨"Bad get: has " ++ f.getTypeName ++ ", requested UInt64", .TYPE_MISMATCH⟩

/-- Modelled from the spec: `safeGet<Int64>` on a `Field`. -/
def safeGetInt64 : Field → Except Exc Int
  | .int64 i => .ok i
  | f => .error ⟨"Bad get: has " ++ f.getTypeName ++ ", requested Int64", .TYPE_MISMATCH⟩

/-- Modelled from the spec: `safeGet<Float64>` on a `Field`. -/
def safeGetFloat64 : Field → Except Exc Rat
  | .float64 q => .ok q
  | f => .error ⟨"Bad get: has " ++ f.getTypeName ++ ", requested Float64", .TYPE_MISMATCH⟩

/-- Modelled from the spec: `safeGet<const String &>` on a `Field`. -/
def safeGetString : Field → Except Exc String
  | .str s => .ok s
  | f => .error ⟨"Bad get: has " ++ f.getTypeName ++ ", requested String", .TYPE_MISMATCH⟩

/-- Modelled from the spec: `parse<UInt64>`, "standard numeric parsing" of decimal
text, failing with a parse error when the text is not a valid literal. -/
def parseUInt64 (s : String) : Except Exc Nat :=
  match s.toNat? with
  | some n => .ok n
  | none => .error ⟨"Cannot parse UInt64 from " ++ s, .CANNOT_PARSE⟩

/-- Decimal digit character for a value below ten. -/
def digitChar (d : Nat) : Char :=
  Char.ofNat (48 + d)

/-- Decimal digit sequence of a natural number, most significant digit first. -/
def natToDigits (n : Nat) : List Char :=
  if _h : n < 10 then [digitChar n]
  else natToDigits (n / 10) ++ [digitChar (n % 10)]
decreasing_by exact Nat.div_lt_self (by omega) (by omega)

/-- Numeric value of a decimal digit character, or `none`. -/
def charToDigit (c : Char) : Option Nat :=
  if 48 ≤ c.toNat ∧ c.toNat ≤ 57 then some (c.toNat - 48) else none

/-- Left fold of decimal digit characters onto an accumulator. -/
def ofDigitsAux : List Char → Nat → Option Nat
  | [], acc => some acc
  | c :: cs, acc =>
    match charToDigit c with
    | some d => ofDigitsAux cs (10 * acc + d)
    | none => none

/-- Value of a nonempty decimal digit string. -/
def ofDigits (l : List Char) : Option Nat :=
  if l = [] then none else ofDigitsAux l 0

/-- Character list of a rational: optional minus sign, numerator digits, a slash,
denominator digits. -/
def ratToChars (q : Rat) : List Char :=
  (if q.num < 0 then ['-'] else []) ++ natToDigits q.num.natAbs ++ '/' :: natToDigits q.den

/-- Modelled from the spec: `DB::toString` on a float is not under `src/`; the spec
(4.1, 6, 8) characterizes the float text form only as an exact textual rendering that
standard float parsing maps back to the same value.  We use an explicit
numerator/denominator rendering of the exact rational model. -/
def floatToString (q : Rat) : String :=
  String.mk (ratToChars q)

/-- Split a character list at its first slash, or fail when it has none. -/
def splitAtSlash : List Char → Option (List Char × List Char)
  | [] => none
  | c :: cs =>
    if c = '/' then some ([], cs)
    else
      match splitAtSlash cs with
      | some (a, b) => some (c :: a, b)
      | none => none

/-- Parse an unsigned digit string pair `num/den` into a rational, with `neg` giving
the sign of the numerator. -/
def parseRatPos (l : List Char) (neg : Bool) : Option Rat :=
  match splitAtSlash l with
  | some (numDs, denDs) =>
    match ofDigits numDs, ofDigits denDs with
    | some numv, some denv => some (mkRat (if neg then -(numv : Int) else (numv : Int)) denv)
    | _, _ => none
  | none => none

/-- Parse the character list of a rational produced by `ratToChars`: an optional
leading minus sign, then the unsigned `num/den` body. -/
def parseRatChars : List Char → Option Rat
  | [] => none
  | c :: rest => if c = '-' then parseRatPos rest true else parseRatPos (c :: rest) false

/-- Modelled from the spec: `parse<float>`, the standard float parser applied to the
textual form, failing with a parse error on invalid input. -/
def parseFloat (s : String) : Except Exc Rat :=
  match parseRatChars s.data with
  | some q => .ok q
  | none => .error ⟨"Cannot parse Float from " ++ s, .CANNOT_PARSE⟩

/-- Modelled from the spec: the `ReadBuffer`/`WriteBuffer` stream helpers
(`readVarUInt`/`writeVarUInt`, `readBinary`/`writeBinary` on strings) are external IO
collaborators not under `src/`.  The spec (6) fixes their wire format as a varint
codec and a length-prefixed string codec; we model the stream as the sequence of
decoded items those codecs carry. -/
inductive WireItem
  | vuint (n : Nat)
  | str (s : String)
  deriving DecidableEq, Repr

/-- A binary stream: the sequence of wire items still to be read. -/
abbrev Buf := List WireItem

/-- Modelled from the spec: `readVarUInt` reads one varint-encoded unsigned integer
from the stream; a short or malformed read fails with an IO error. -/
def readVarUInt : Buf → Except Exc (Nat × Buf)
  | WireItem.vuint n :: rest => .ok (n, rest)
  | _ => .error ⟨"Cannot read varint from buffer", .CANNOT_READ⟩

/-- Modelled from the spec: `readBinary` on a `String` reads one length-prefixed
string from the stream; a short or malformed read fails with an IO error. -/
def readBinaryString : Buf → Except Exc (String × Buf)
  | WireItem.str s :: rest => .ok (s, rest)
  | _ => .error ⟨"Cannot read string from buffer", .CANNOT_READ⟩

/-- Modelled from the spec: `Poco::Timespan`, "a single duration representation with
sub-second precision"; Poco stores a tick count of microseconds.  The entry points of
the header only ever build non-negative spans, so ticks are a natural number. -/
structure Timespan where
  microseconds : Nat
  deriving DecidableEq, Repr

/-- Timespan constructor from seconds and microseconds (`Timespan(seconds, microseconds)`). -/
def Timespan.ofSeconds (seconds : Nat) (microseconds : Nat) : Timespan :=
  ⟨seconds * 1000000 + microseconds⟩

/-- Whole seconds of a span, sub-second part truncated (`Timespan::totalSeconds`). -/
def Timespan.totalSeconds (t : Timespan) : Nat :=
  t.microseconds / 1000000

/-- Whole milliseconds of a span, sub-millisecond part truncated
(`Timespan::totalMilliseconds`). -/
def Timespan.totalMilliseconds (t : Timespan) : Nat :=
  t.microseconds / 1000

/-- The unsigned-integer setting box (`struct SettingUInt64`). -/
structure SettingUInt64 where
  value : Nat
  changed : Bool
  deriving DecidableEq, Repr

/-- Constructor `SettingUInt64(UInt64 x = 0)`: stores `x`, leaves `changed` false. -/
def SettingUInt64.ofNat (x : Nat) : SettingUInt64 :=
  ⟨x, false⟩

/-- `SettingUInt64::set(UInt64)`: store and mark changed. -/
def SettingUInt64.set (_s : SettingUInt64) (x : Nat) : SettingUInt64 :=
  ⟨x, true⟩

/-- `SettingUInt64::set(const Field &)`: `set(safeGet<UInt64>(x))`. -/
def SettingUInt64.setField (s : SettingUInt64) (x : Field) :
    Except (Exc × SettingUInt64) SettingUInt64 :=
  match safeGetUInt64 x with
  | .ok v => .ok (s.set v)
  | .error e => .error (e, s)

/-- `SettingUInt64::set(const String &)`: `set(parse<UInt64>(x))`. -/
def SettingUInt64.setString (s : SettingUInt64) (x : String) :
    Except (Exc × SettingUInt64) SettingUInt64 :=
  match parseUInt64 x with
  | .ok v => .ok (s.set v)
  | .error e => .error (e, s)

/-- `SettingUInt64::set(ReadBuffer &)`: read a varint, then `set`. -/
def SettingUInt64.setBuf (s : SettingUInt64) (b : Buf) :
    Except (Exc × SettingUInt64) (SettingUInt64 × Buf) :=
  match readVarUInt b with
  | .ok (x, rest) => .ok (s.set x, rest)
  | .error e => .error (e, s)

/-- `SettingUInt64::write(WriteBuffer &)`: write the value as a varint. -/
def SettingUInt64.write (s : SettingUInt64) : Buf :=
  [WireItem.vuint s.value]

/-- The boolean setting is a typedef of the unsigned-integer one
(`typedef SettingUInt64 SettingBool`). -/
abbrev SettingBool := SettingUInt64

/-- The seconds-resolution duration setting box (`struct SettingSeconds`). -/
structure SettingSeconds where
  value : Timespan
  changed : Bool
  deriving DecidableEq, Repr

/-- Constructor `SettingSeconds(UInt64 seconds = 0)`: `value(seconds, 0)`. -/
def SettingSeconds.ofNat (seconds : Nat) : SettingSeconds :=
  ⟨Timespan.ofSeconds seconds 0, false⟩

/-- `SettingSeconds::totalSeconds()`. -/
def SettingSeconds.totalSeconds (s : SettingSeconds) : Nat :=
  s.value.totalSeconds

/-- `SettingSeconds::set(Poco::Timespan)`: store and mark changed. -/
def SettingSeconds.setSpan (_s : SettingSeconds) (x : Timespan) : SettingSeconds :=
  ⟨x, true⟩

/-- `SettingSeconds::set(UInt64)`: `set(Poco::Timespan(x, 0))`. -/
def SettingSeconds.set (s : SettingSeconds) (x : Nat) : SettingSeconds :=
  s.setSpan (Timespan.ofSeconds x 0)

/-- `SettingSeconds::set(const Field &)`: `set(safeGet<UInt64>(x))`. -/
def SettingSeconds.setField (s : SettingSeconds) (x : Field) :
    Except (Exc × SettingSeconds) SettingSeconds :=
  match safeGetUInt64 x with
  | .ok v => .ok (s.set v)
  | .error e => .error (e, s)

/-- `SettingSeconds::set(const String &)`: `set(parse<UInt64>(x))`. -/
def SettingSeconds.setString (s : SettingSeconds) (x : String) :
    Except (Exc × SettingSeconds) SettingSeconds :=
  match parseUInt64 x with
  | .ok v => .ok (s.set v)
  | .error e => .error (e, s)

/-- `SettingSeconds::set(ReadBuffer &)`: read a varint, then `set`. -/
def SettingSeconds.setBuf (s : SettingSeconds) (b : Buf) :
    Except (Exc × SettingSeconds) (SettingSeconds × Buf) :=
  match readVarUInt b with
  | .ok (x, rest) => .ok (s.set x, rest)
  | .error e => .error (e, s)

/-- `SettingSeconds::write(WriteBuffer &)`: write `value.totalSeconds()` as a varint. -/
def SettingSeconds.write (s : SettingSeconds) : Buf :=
  [WireItem.vuint s.value.totalSeconds]

/-- The milliseconds-resolution duration setting box (`struct SettingMilliseconds`). -/
structure SettingMilliseconds where
  value : Timespan
  changed : Bool
  deriving DecidableEq, Repr

/-- Constructor `SettingMilliseconds(UInt64 milliseconds = 0)`:
`value(milliseconds * 1000)` microsecond ticks. -/
def SettingMilliseconds.ofNat (milliseconds : Nat) : SettingMilliseconds :=
  ⟨⟨milliseconds * 1000⟩, false⟩

/-- `SettingMilliseconds::totalMilliseconds()`. -/
def SettingMilliseconds.totalMilliseconds (s : SettingMilliseconds) : Nat :=
  s.value.totalMilliseconds

/-- `SettingMilliseconds::set(Poco::Timespan)`: store and mark changed. -/
def SettingMilliseconds.setSpan (_s : SettingMilliseconds) (x : Timespan) : SettingMilliseconds :=
  ⟨x, true⟩

/-- `SettingMilliseconds::set(UInt64)`: `set(Poco::Timespan(x * 1000))`. -/
def SettingMilliseconds.set (s : SettingMilliseconds) (x : Nat) : SettingMilliseconds :=
  s.setSpan ⟨x * 1000⟩

/-- `SettingMilliseconds::set(const Field &)`: `set(safeGet<UInt64>(x))`. -/
def SettingMilliseconds.setField (s : SettingMilliseconds) (x : Field) :
    Except (Exc × SettingMilliseconds) SettingMilliseconds :=
  match safeGetUInt64 x with
  | .ok v => .ok (s.set v)
  | .error e => .error (e, s)

/-- `SettingMilliseconds::set(const String &)`: `set(parse<UInt64>(x))`. -/
def SettingMilliseconds.setString (s : SettingMilliseconds) (x : String) :
    Except (Exc × SettingMilliseconds) SettingMilliseconds :=
  match parseUInt64 x with
  | .ok v => .ok (s.set v)
  | .error e => .error (e, s)

/-- `SettingMilliseconds::set(ReadBuffer &)`: read a varint, then `set`. -/
def SettingMilliseconds.setBuf (s : SettingMilliseconds) (b : Buf) :
    Except (Exc × SettingMilliseconds) (SettingMilliseconds × Buf) :=
  match readVarUInt b with
  | .ok (x, rest) => .ok (s.set x, rest)
  | .error e => .error (e, s)

/-- `SettingMilliseconds::write(WriteBuffer &)`: write `value.totalMilliseconds()` as
a varint. -/
def SettingMilliseconds.write (s : SettingMilliseconds) : Buf :=
  [WireItem.vuint s.value.totalMilliseconds]

/-- The float setting box (`struct SettingFloat`); the machine float is modelled as an
exact rational. -/
structure SettingFloat where
  value : Rat
  changed : Bool
  deriving DecidableEq, Repr

/-- Constructor `SettingFloat(float x = 0)`: stores `x`, leaves `changed` false. -/
def SettingFloat.ofRat (x : Rat) : SettingFloat :=
  ⟨x, false⟩

/-- `SettingFloat::set(float)`: store and mark changed. -/
def SettingFloat.set (_s : SettingFloat) (x : Rat) : SettingFloat :=
  ⟨x, true⟩

/-- `SettingFloat::set(const Field &)`: dispatch on `x.getType()` over UInt64, Int64
and Float64, widening each to the float value; any other type throws a type-mismatch
error naming the offending type. -/
def SettingFloat.setField (s : SettingFloat) (x : Field) :
    Except (Exc × SettingFloat) SettingFloat :=
  if x.getType = FieldType.UInt64 then
    match safeGetUInt64 x with
    | .ok v => .ok (s.set (v : Rat))
    | .error e => .error (e, s)
  else if x.getType = FieldType.Int64 then
    match safeGetInt64 x with
    | .ok v => .ok (s.set (v : Rat))
    | .error e => .error (e, s)
  else if x.getType = FieldType.Float64 then
    match safeGetFloat64 x with
    | .ok v => .ok (s.set v)
    | .error e => .error (e, s)
  else
    .error (⟨"Bad type of setting. Expected UInt64, Int64 or Float64, got "
      ++ x.getTypeName, .TYPE_MISMATCH⟩, s)

/-- `SettingFloat::set(const String &)`: `set(parse<float>(x))`. -/
def SettingFloat.setString (s : SettingFloat) (x : String) :
    Except (Exc × SettingFloat) SettingFloat :=
  match parseFloat x with
  | .ok v => .ok (s.set v)
  | .error e => .error (e, s)

/-- `SettingFloat::set(ReadBuffer &)`: read a length-prefixed string, then `set` from
that text. -/
def SettingFloat.setBuf (s : SettingFloat) (b : Buf) :
    Except (Exc × SettingFloat) (SettingFloat × Buf) :=
  match readBinaryString b with
  | .ok (t, rest) =>
    match s.setString t with
    | .ok s2 => .ok (s2, rest)
    | .error e => .error e
  | .error e => .error (e, s)

/-- `SettingFloat::write(WriteBuffer &)`: write `toString(value)` length-prefixed. -/
def SettingFloat.write (s : SettingFloat) : Buf :=
  [WireItem.str (floatToString s.value)]

/-- The `enum class LoadBalancing` of the header, kept as its underlying ordinal so
that the defensive range checks of `toString` stay meaningful. -/
abbrev LoadBalancing := Nat

/-- Ordinal of `LoadBalancing::RANDOM`. -/
def LoadBalancing.RANDOM : LoadBalancing := 0

/-- Ordinal of `LoadBalancing::NEAREST_HOSTNAME`. -/
def LoadBalancing.NEAREST_HOSTNAME : LoadBalancing := 1

/-- The load-balancing setting box (`struct SettingLoadBalancing`). -/
structure SettingLoadBalancing where
  value : LoadBalancing
  changed : Bool
  deriving DecidableEq, Repr

/-- Constructor `SettingLoadBalancing(LoadBalancing x)`: no default value; stores `x`
and leaves `changed` false. -/
def SettingLoadBalancing.ofMode (x : LoadBalancing) : SettingLoadBalancing :=
  ⟨x, false⟩

/-- Static `SettingLoadBalancing::getLoadBalancing(const String &)`: name-table
lookup; unknown text throws listing the legal names. -/
def SettingLoadBalancing.getLoadBalancing (s : String) : Except Exc LoadBalancing :=
  if s = "random" then .ok LoadBalancing.RANDOM
  else if s = "nearest_hostname" then .ok LoadBalancing.NEAREST_HOSTNAME
  else .error ⟨"Unknown load balancing mode: " ++ s
    ++ ", must be one of random, nearest_hostname", .UNKNOWN_LOAD_BALANCING⟩

/-- `SettingLoadBalancing::toString()`: guarded ordinal-to-name table lookup; an
ordinal outside the enumeration throws before any table access. -/
def SettingLoadBalancing.toString (s : SettingLoadBalancing) : Except Exc String :=
  let strings := ["random", "nearest_hostname"]
  if s.value < LoadBalancing.RANDOM ∨ LoadBalancing.NEAREST_HOSTNAME < s.value then
    .error ⟨"Unknown load balancing mode", .UNKNOWN_OVERFLOW_MODE⟩
  else .ok (strings.getD s.value "")

/-- `SettingLoadBalancing::set(LoadBalancing)`: store and mark changed. -/
def SettingLoadBalancing.set (_s : SettingLoadBalancing) (x : LoadBalancing) :
    SettingLoadBalancing :=
  ⟨x, true⟩

/-- `SettingLoadBalancing::set(const String &)`: `set(getLoadBalancing(x))`. -/
def SettingLoadBalancing.setString (s : SettingLoadBalancing) (x : String) :
    Except (Exc × SettingLoadBalancing) SettingLoadBalancing :=
  match SettingLoadBalancing.getLoadBalancing x with
  | .ok v => .ok (s.set v)
  | .error e => .error (e, s)

/-- `SettingLoadBalancing::set(const Field &)`: `set(safeGet<const String &>(x))`. -/
def SettingLoadBalancing.setField (s : SettingLoadBalancing) (x : Field) :
    Except (Exc × SettingLoadBalancing) SettingLoadBalancing :=
  match safeGetString x with
  | .ok t => s.setString t
  | .error e => .error (e, s)

/-- `SettingLoadBalancing::set(ReadBuffer &)`: read a length-prefixed string, then
`set` from that text. -/
def SettingLoadBalancing.setBuf (s : SettingLoadBalancing) (b : Buf) :
    Except (Exc × SettingLoadBalancing) (SettingLoadBalancing × Buf) :=
  match readBinaryString b with
  | .ok (t, rest) =>
    match s.setString t with
    | .ok s2 => .ok (s2, rest)
    | .error e => .error e
  | .error e => .error (e, s)

/-- `SettingLoadBalancing::write(WriteBuffer &)`: write `toString()` length-prefixed. -/
def SettingLoadBalancing.write (s : SettingLoadBalancing) : Except Exc Buf :=
  match s.toString with
  | .ok t => .ok [WireItem.str t]
  | .error e => .error e

/-- The `enum class TotalsMode` of the header, kept as its underlying ordinal. -/
abbrev TotalsMode := Nat

/-- Ordinal of `TotalsMode::BEFORE_HAVING`. -/
def TotalsMode.BEFORE_HAVING : TotalsMode := 0

/-- Ordinal of `TotalsMode::AFTER_HAVING_INCLUSIVE`. -/
def TotalsMode.AFTER_HAVING_INCLUSIVE : TotalsMode := 1

/-- Ordinal of `TotalsMode::AFTER_HAVING_EXCLUSIVE`. -/
def TotalsMode.AFTER_HAVING_EXCLUSIVE : TotalsMode := 2

/-- Ordinal of `TotalsMode::AFTER_HAVING_AUTO`. -/
def TotalsMode.AFTER_HAVING_AUTO : TotalsMode := 3

/-- The totals-mode setting box (`struct SettingTotalsMode`). -/
structure SettingTotalsMode where
  value : TotalsMode
  changed : Bool
  deriving DecidableEq, Repr

/-- Constructor `SettingTotalsMode(TotalsMode x)`: no default value; stores `x` and
leaves `changed` false. -/
def SettingTotalsMode.ofMode (x : TotalsMode) : SettingTotalsMode :=
  ⟨x, false⟩

/-- Static `SettingTotalsMode::getTotalsMode(const String &)`: name-table lookup;
unknown text throws listing the legal names. -/
def SettingTotalsMode.getTotalsMode (s : String) : Except Exc TotalsMode :=
  if s = "before_having" then .ok TotalsMode.BEFORE_HAVING
  else if s = "after_having_exclusive" then .ok TotalsMode.AFTER_HAVING_EXCLUSIVE
  else if s = "after_having_inclusive" then .ok TotalsMode.AFTER_HAVING_INCLUSIVE
  else if s = "after_having_auto" then .ok TotalsMode.AFTER_HAVING_AUTO
  else .error ⟨"Unknown totals mode: " ++ s
    ++ ", must be one of before_having, after_having_exclusive, after_having_inclusive, after_having_auto",
    .UNKNOWN_TOTALS_MODE⟩

/-- `SettingTotalsMode::toString()`: switch over the four enumerators; the default
branch throws an out-of-bound error. -/
def SettingTotalsMode.toString (s : SettingTotalsMode) : Except Exc String :=
  if s.value = TotalsMode.BEFORE_HAVING then .ok "before_having"
  else if s.value = TotalsMode.AFTER_HAVING_EXCLUSIVE then .ok "after_having_exclusive"
  else if s.value = TotalsMode.AFTER_HAVING_INCLUSIVE then .ok "after_having_inclusive"
  else if s.value = TotalsMode.AFTER_HAVING_AUTO then .ok "after_having_auto"
  else .error ⟨"Unknown TotalsMode enum value: " ++ Nat.repr s.value,
    .ARGUMENT_OUT_OF_BOUND⟩

/-- `SettingTotalsMode::set(TotalsMode)`: store and mark changed. -/
def SettingTotalsMode.set (_s : SettingTotalsMode) (x : TotalsMode) : SettingTotalsMode :=
  ⟨x, true⟩

/-- `SettingTotalsMode::set(const String &)`: `set(getTotalsMode(x))`. -/
def SettingTotalsMode.setString (s : SettingTotalsMode) (x : String) :
    Except (Exc × SettingTotalsMode) SettingTotalsMode :=
  match SettingTotalsMode.getTotalsMode x with
  | .ok v => .ok (s.set v)
  | .error e => .error (e, s)

/-- `SettingTotalsMode::set(const Field &)`: `set(safeGet<const String &>(x))`. -/
def SettingTotalsMode.setField (s : SettingTotalsMode) (x : Field) :
    Except (Exc × SettingTotalsMode) SettingTotalsMode :=
  match safeGetString x with
  | .ok t => s.setString t
  | .error e => .error (e, s)

/-- `SettingTotalsMode::set(ReadBuffer &)`: read a length-prefixed string, then `set`
from that text. -/
def SettingTotalsMode.setBuf (s : SettingTotalsMode) (b : Buf) :
    Except (Exc × SettingTotalsMode) (SettingTotalsMode × Buf) :=
  match readBinaryString b with
  | .ok (t, rest) =>
    match s.setString t with
    | .ok s2 => .ok (s2, rest)
    | .error e => .error e
  | .error e => .error (e, s)

/-- `SettingTotalsMode::write(WriteBuffer &)`: write `toString()` length-prefixed. -/
def SettingTotalsMode.write (s : SettingTotalsMode) : Except Exc Buf :=
  match s.toString with
  | .ok t => .ok [WireItem.str t]
  | .error e => .error e

/-- The `enum class OverflowMode` of the header, kept as its underlying ordinal. -/
abbrev OverflowMode := Nat

/-- Ordinal of `OverflowMode::THROW`. -/
def OverflowMode.THROW : OverflowMode := 0

/-- Ordinal of `OverflowMode::BREAK`. -/
def OverflowMode.BREAK : OverflowMode := 1

/-- Ordinal of `OverflowMode::ANY`. -/
def OverflowMode.ANY : OverflowMode := 2

/-- The overflow-mode setting box (`template <bool enable_mode_any> struct
SettingOverflowMode`); the compile-time boolean template parameter becomes a type
index. -/
structure SettingOverflowMode (enable_mode_any : Bool) where
  value : OverflowMode
  changed : Bool
  deriving DecidableEq, Repr

/-- Constructor `SettingOverflowMode(OverflowMode x = OverflowMode::THROW)`: stores
`x` and leaves `changed` false. -/
def SettingOverflowMode.ofMode (enable_mode_any : Bool) (x : OverflowMode) :
    SettingOverflowMode enable_mode_any :=
  ⟨x, false⟩

/-- Static `SettingOverflowMode::getOverflowModeForGroupBy(const String &)`:
name-table lookup over throw, break, any; unknown text throws listing the legal
names. -/
def SettingOverflowMode.getOverflowModeForGroupBy (s : String) : Except Exc OverflowMode :=
  if s = "throw" then .ok OverflowMode.THROW
  else if s = "break" then .ok OverflowMode.BREAK
  else if s = "any" then .ok OverflowMode.ANY
  else .error ⟨"Unknown overflow mode: " ++ s ++ ", must be one of throw, break, any",
    .UNKNOWN_OVERFLOW_MODE⟩

/-- Static `SettingOverflowMode::getOverflowMode(const String &)`: the group-by lookup
followed by the legality check rejecting `any` when `enable_mode_any` is false. -/
def SettingOverflowMode.getOverflowMode (enable_mode_any : Bool) (s : String) :
    Except Exc OverflowMode :=
  match SettingOverflowMode.getOverflowModeForGroupBy s with
  | .ok mode =>
    if mode = OverflowMode.ANY ∧ enable_mode_any = false then
      .error ⟨"Illegal overflow mode: any is only for group_by_overflow_mode",
        .ILLEGAL_OVERFLOW_MODE⟩
    else .ok mode
  | .error e => .error e

/-- `SettingOverflowMode::toString()`: guarded ordinal-to-name table lookup over
throw, break, any; an ordinal outside the enumeration throws before any table
access. -/
def SettingOverflowMode.toString {enable_mode_any : Bool}
    (s : SettingOverflowMode enable_mode_any) : Except Exc String :=
  let strings := ["throw", "break", "any"]
  if s.value < OverflowMode.THROW ∨ OverflowMode.ANY < s.value then
    .error ⟨"Unknown overflow mode", .UNKNOWN_OVERFLOW_MODE⟩
  else .ok (strings.getD s.value "")

/-- `SettingOverflowMode::set(OverflowMode)`: store and mark changed; no legality
check on this native entry point. -/
def SettingOverflowMode.set {enable_mode_any : Bool}
    (_s : SettingOverflowMode enable_mode_any) (x : OverflowMode) :
    SettingOverflowMode enable_mode_any :=
  ⟨x, true⟩

/-- `SettingOverflowMode::set(const String &)`: `set(getOverflowMode(x))`. -/
def SettingOverflowMode.setString {enable_mode_any : Bool}
    (s : SettingOverflowMode enable_mode_any) (x : String) :
    Except (Exc × SettingOverflowMode enable_mode_any) (SettingOverflowMode enable_mode_any) :=
  match SettingOverflowMode.getOverflowMode enable_mode_any x with
  | .ok v => .ok (s.set v)
  | .error e => .error (e, s)

/-- `SettingOverflowMode::set(const Field &)`: `set(safeGet<const String &>(x))`. -/
def SettingOverflowMode.setField {enable_mode_any : Bool}
    (s : SettingOverflowMode enable_mode_any) (x : Field) :
    Except (Exc × SettingOverflowMode enable_mode_any) (SettingOverflowMode enable_mode_any) :=
  match safeGetString x with
  | .ok t => s.setString t
  | .error e => .error (e, s)

/-- `SettingOverflowMode::set(ReadBuffer &)`: read a length-prefixed string, then
`set` from that text. -/
def SettingOverflowMode.setBuf {enable_mode_any : Bool}
    (s : SettingOverflowMode enable_mode_any) (b : Buf) :
    Except (Exc × SettingOverflowMode enable_mode_any)
      (SettingOverflowMode enable_mode_any × Buf) :=
  match readBinaryString b with
  | .ok (t, rest) =>
    match s.setString t with
    | .ok s2 => .ok (s2, rest)
    | .error e => .error e
  | .error e => .error (e, s)

/-- `SettingOverflowMode::write(WriteBuffer &)`: write `toString()` length-prefixed. -/
def SettingOverflowMode.write {enable_mode_any : Bool}
    (s : SettingOverflowMode enable_mode_any) : Except Exc Buf :=
  match s.toString with
  | .ok t => .ok [WireItem.str t]
  | .error e => .error e

/-- One call to a `set` entry point of the unsigned-integer box: native value, tagged
variant, text, or binary stream. -/
inductive UInt64Op
  | native (x : Nat)
  | field (f : Field)
  | text (t : String)
  | stream (b : Buf)

/-- Run one `set` entry point of the unsigned-integer box; the error channel carries
the state of the box when the exception leaves the call. -/
def SettingUInt64.run (s : SettingUInt64) : UInt64Op →
    Except (Exc × SettingUInt64) SettingUInt64
  | .native x => .ok (s.set x)
  | .field f => s.setField f
  | .text t => s.setString t
  | .stream b => (s.setBuf b).map Prod.fst

/-- State of the unsigned-integer box after one `set` call, whether it returned or
threw (C++ exception semantics: a throw leaves the object as it was at the throw). -/
def SettingUInt64.after (s : SettingUInt64) (op : UInt64Op) : SettingUInt64 :=
  match s.run op with
  | .ok s2 => s2
  | .error (_, s2) => s2

/-- One call to a `set` entry point of the seconds box, including the
`set(Poco::Timespan)` overload. -/
inductive SecondsOp
  | span (t : Timespan)
  | native (x : Nat)
  | field (f : Field)
  | text (t : String)
  | stream (b : Buf)

/-- Run one `set` entry point of the seconds box. -/
def SettingSeconds.run (s : SettingSeconds) : SecondsOp →
    Except (Exc × SettingSeconds) SettingSeconds
  | .span t => .ok (s.setSpan t)
  | .native x => .ok (s.set x)
  | .field f => s.setField f
  | .text t => s.setString t
  | .stream b => (s.setBuf b).map Prod.fst

/-- State of the seconds box after one `set` call, whether it returned or threw. -/
def SettingSeconds.after (s : SettingSeconds) (op : SecondsOp) : SettingSeconds :=
  match s.run op with
  | .ok s2 => s2
  | .error (_, s2) => s2

/-- One call to a `set` entry point of the milliseconds box, including the
`set(Poco::Timespan)` overload. -/
inductive MillisecondsOp
  | span (t : Timespan)
  | native (x : Nat)
  | field (f : Field)
  | text (t : String)
  | stream (b : Buf)

/-- Run one `set` entry point of the milliseconds box. -/
def SettingMilliseconds.run (s : SettingMilliseconds) : MillisecondsOp →
    Except (Exc × SettingMilliseconds) SettingMilliseconds
  | .span t => .ok (s.setSpan t)
  | .native x => .ok (s.set x)
  | .field f => s.setField f
  | .text t => s.setString t
  | .stream b => (s.setBuf b).map Prod.fst

/-- State of the milliseconds box after one `set` call, whether it returned or threw. -/
def SettingMilliseconds.after (s : SettingMilliseconds) (op : MillisecondsOp) :
    SettingMilliseconds :=
  match s.run op with
  | .ok s2 => s2
  | .error (_, s2) => s2

/-- One call to a `set` entry point of the float box. -/
inductive FloatOp
  | native (x : Rat)
  | field (f : Field)
  | text (t : String)
  | stream (b : Buf)

/-- Run one `set` entry point of the float box. -/
def SettingFloat.run (s : SettingFloat) : FloatOp →
    Except (Exc × SettingFloat) SettingFloat
  | .native x => .ok (s.set x)
  | .field f => s.setField f
  | .text t => s.setString t
  | .stream b => (s.setBuf b).map Prod.fst

/-- State of the float box after one `set` call, whether it returned or threw. -/
def SettingFloat.after (s : SettingFloat) (op : FloatOp) : SettingFloat :=
  match s.run op with
  | .ok s2 => s2
  | .error (_, s2) => s2

/-- One call to a `set` entry point of the load-balancing box. -/
inductive LoadBalancingOp
  | native (x : LoadBalancing)
  | field (f : Field)
  | text (t : String)
  | stream (b : Buf)

/-- Run one `set` entry point of the load-balancing box. -/
def SettingLoadBalancing.run (s : SettingLoadBalancing) : LoadBalancingOp →
    Except (Exc × SettingLoadBalancing) SettingLoadBalancing
  | .native x => .ok (s.set x)
  | .field f => s.setField f
  | .text t => s.setString t
  | .stream b => (s.setBuf b).map Prod.fst

/-- State of the load-balancing box after one `set` call, whether it returned or
threw. -/
def SettingLoadBalancing.after (s : SettingLoadBalancing) (op : LoadBalancingOp) :
    SettingLoadBalancing :=
  match s.run op with
  | .ok s2 => s2
  | .error (_, s2) => s2

/-- One call to a `set` entry point of the totals-mode box. -/
inductive TotalsModeOp
  | native (x : TotalsMode)
  | field (f : Field)
  | text (t : String)
  | stream (b : Buf)

/-- Run one `set` entry point of the totals-mode box. -/
def SettingTotalsMode.run (s : SettingTotalsMode) : TotalsModeOp →
    Except (Exc × SettingTotalsMode) SettingTotalsMode
  | .native x => .ok (s.set x)
  | .field f => s.setField f
  | .text t => s.setString t
  | .stream b => (s.setBuf b).map Prod.fst

/-- State of the totals-mode box after one `set` call, whether it returned or threw. -/
def SettingTotalsMode.after (s : SettingTotalsMode) (op : TotalsModeOp) :
    SettingTotalsMode :=
  match s.run op with
  | .ok s2 => s2
  | .error (_, s2) => s2

/-- One call to a `set` entry point of the overflow-mode box. -/
inductive OverflowModeOp
  | native (x : OverflowMode)
  | field (f : Field)
  | text (t : String)
  | stream (b : Buf)

/-- Run one `set` entry point of the overflow-mode box. -/
def SettingOverflowMode.run {enable_mode_any : Bool}
    (s : SettingOverflowMode enable_mode_any) : OverflowModeOp →
    Except (Exc × SettingOverflowMode enable_mode_any) (SettingOverflowMode enable_mode_any)
  | .native x => .ok (s.set x)
  | .field f => s.setField f
  | .text t => s.setString t
  | .stream b => (s.setBuf b).map Prod.fst

/-- State of the overflow-mode box after one `set` call, whether it returned or
threw. -/
def SettingOverflowMode.after {enable_mode_any : Bool}
    (s : SettingOverflowMode enable_mode_any) (op : OverflowModeOp) :
    SettingOverflowMode enable_mode_any :=
  match s.run op with
  | .ok s2 => s2
  | .error (_, s2) => s2

/-- A decimal digit character has code between 48 and 57. -/
theorem digitChar_range (d : Nat) (h : d < 10) :
    48 ≤ (digitChar d).toNat ∧ (digitChar d).toNat ≤ 57 := by
  interval_cases d <;> decide

/-- Reading back the digit character of a value below ten. -/
theorem charToDigit_digitChar (d : Nat) (h : d < 10) :
    charToDigit (digitChar d) = some d := by
  interval_cases d <;> decide

/-- Every character of `natToDigits` is a decimal digit. -/
theorem natToDigits_digit (n : Nat) :
    ∀ c ∈ natToDigits n, 48 ≤ c.toNat ∧ c.toNat ≤ 57 := by
  induction n using Nat.strong_induction_on with
  | _ n ih =>
    intro c hc
    rw [natToDigits] at hc
    by_cases h : n < 10
    · rw [dif_pos h] at hc
      simp only [List.mem_singleton] at hc
      subst hc
      exact digitChar_range n h
    · rw [dif_neg h] at hc
      rw [List.mem_append] at hc
      rcases hc with hc | hc
      · exact ih (n / 10) (Nat.div_lt_self (by omega) (by omega)) c hc
      · simp only [List.mem_singleton] at hc
        subst hc
        exact digitChar_range _ (Nat.mod_lt _ (by omega))

/-- The digit string of a natural number is never empty. -/
theorem natToDigits_ne_nil (n : Nat) : natToDigits n ≠ [] := by
  rw [natToDigits]
  split <;> simp

/-- Folding the digit string of `n` onto an accumulator shifts the accumulator by
the number of digits and adds `n`. -/
theorem ofDigitsAux_natToDigits (n : Nat) : ∀ (rest : List Char) (acc : Nat),
    ofDigitsAux (natToDigits n ++ rest) acc
      = ofDigitsAux rest (acc * 10 ^ (natToDigits n).length + n) := by
  induction n using Nat.strong_induction_on with
  | _ n ih =>
    intro rest acc
    by_cases h : n < 10
    · rw [natToDigits, dif_pos h]
      simp only [List.singleton_append, List.length_singleton, pow_one, ofDigitsAux,
        charToDigit_digitChar n h]
      congr 1
      ring
    · rw [natToDigits, dif_neg h]
      rw [List.append_assoc, List.singleton_append]
      rw [ih (n / 10) (Nat.div_lt_self (by omega) (by omega))]
      simp only [ofDigitsAux, charToDigit_digitChar _ (Nat.mod_lt n (by omega))]
      congr 1
      rw [List.length_append, List.length_singleton, pow_add, pow_one]
      rw [show acc * (10 ^ (natToDigits (n / 10)).length * 10)
            = acc * 10 ^ (natToDigits (n / 10)).length * 10 from by ring]
      generalize acc * 10 ^ (natToDigits (n / 10)).length = m
      omega

/-- Round trip of the decimal digit codec. -/
theorem ofDigits_natToDigits (n : Nat) : ofDigits (natToDigits n) = some n := by
  have h := ofDigitsAux_natToDigits n [] 0
  rw [List.append_nil] at h
  simp only [ofDigitsAux, Nat.zero_mul, Nat.zero_add] at h
  rw [ofDigits, if_neg (natToDigits_ne_nil n), h]

/-- No digit character is a slash. -/
theorem natToDigits_ne_slash (n : Nat) : ∀ c ∈ natToDigits n, ¬ c = '/' := by
  intro c hc heq
  have hd := natToDigits_digit n c hc
  subst heq
  exact absurd hd (by decide)

/-- Splitting at the slash recovers the two digit blocks. -/
theorem splitAtSlash_append (a b : List Char) (ha : ∀ c ∈ a, ¬ c = '/') :
    splitAtSlash (a ++ '/' :: b) = some (a, b) := by
  induction a with
  | nil => simp [splitAtSlash]
  | cons c cs ih =>
    have hc : ¬ c = '/' := ha c (by simp)
    simp only [List.cons_append, splitAtSlash, if_neg hc, List.append_eq]
    rw [ih (fun x hx => ha x (by simp [hx]))]

/-- Parsing the unsigned body `num/den` built from digit strings. -/
theorem parseRatPos_digits (a d : Nat) (neg : Bool) :
    parseRatPos (natToDigits a ++ '/' :: natToDigits d) neg
      = some (mkRat (if neg then -(a : Int) else (a : Int)) d) := by
  rw [parseRatPos]
  rw [splitAtSlash_append _ _ (natToDigits_ne_slash a)]
  simp only [ofDigits_natToDigits]

/-- Parsing a character list that starts with the minus sign. -/
theorem parseRatChars_dash (l : List Char) :
    parseRatChars ('-' :: l) = parseRatPos l true := by
  simp [parseRatChars]

/-- Parsing a character list whose head is not the minus sign. -/
theorem parseRatChars_cons (c : Char) (l : List Char) (h : ¬ c = '-') :
    parseRatChars (c :: l) = parseRatPos (c :: l) false := by
  simp [parseRatChars, h]

/-- Round trip of the rational text codec. -/
theorem parseRatChars_ratToChars (q : Rat) : parseRatChars (ratToChars q) = some q := by
  rw [ratToChars]
  by_cases hq : q.num < 0
  · rw [if_pos hq]
    show parseRatChars ('-' :: (natToDigits q.num.natAbs ++ '/' :: natToDigits q.den))
        = some q
    rw [parseRatChars_dash, parseRatPos_digits]
    have hnum : -(q.num.natAbs : Int) = q.num := by omega
    rw [if_pos (show (true : Bool) = true from rfl), hnum, Rat.mkRat_self]
  · rw [if_neg hq]
    simp only [List.nil_append]
    rcases hne : natToDigits q.num.natAbs with _ | ⟨c, t⟩
    · exact absurd hne (natToDigits_ne_nil _)
    · have hcmem : c ∈ natToDigits q.num.natAbs := by
        rw [hne]; exact List.mem_cons_self c t
      have hcdash : ¬ c = '-' := by
        intro heq
        have hd := natToDigits_digit _ c hcmem
        subst heq
        exact absurd hd (by decide)
      rw [List.cons_append, parseRatChars_cons c _ hcdash, ← List.cons_append, ← hne,
        parseRatPos_digits]
      have hnum : ((q.num.natAbs : Int)) = q.num := by omega
      rw [if_neg (show ¬ (false : Bool) = true from by decide), hnum, Rat.mkRat_self]

/-- Round trip of the modelled float text form. -/
theorem parseFloat_floatToString (q : Rat) : parseFloat (floatToString q) = .ok q := by
  have hdata : (floatToString q).data = ratToChars q := rfl
  rw [parseFloat, hdata, parseRatChars_ratToChars]

/-- Any successful entry point of the unsigned-integer box marks it changed. -/
theorem SettingUInt64.run_ok_changed_u64 (s : SettingUInt64) (op : UInt64Op)
    (s2 : SettingUInt64) (h : s.run op = .ok s2) : s2.changed = true := by
  cases op with
  | native x => simp only [SettingUInt64.run] at h; cases h; rfl
  | field f =>
    simp only [SettingUInt64.run, SettingUInt64.setField] at h
    split at h
    · cases h; rfl
    · cases h
  | text t =>
    simp only [SettingUInt64.run, SettingUInt64.setString] at h
    split at h
    · cases h; rfl
    · cases h
  | stream b =>
    simp only [SettingUInt64.run, SettingUInt64.setBuf] at h
    split at h
    · simp only [Except.map] at h; cases h; rfl
    · simp only [Except.map] at h; cases h

/-- A throwing entry point of the unsigned-integer box leaves it as it was. -/
theorem SettingUInt64.run_error_state_u64 (s : SettingUInt64) (op : UInt64Op) (e : Exc)
    (s2 : SettingUInt64) (h : s.run op = .error (e, s2)) : s2 = s := by
  cases op with
  | native x => simp only [SettingUInt64.run] at h; cases h
  | field f =>
    simp only [SettingUInt64.run, SettingUInt64.setField] at h
    split at h
    · cases h
    · cases h; rfl
  | text t =>
    simp only [SettingUInt64.run, SettingUInt64.setString] at h
    split at h
    · cases h
    · cases h; rfl
  | stream b =>
    simp only [SettingUInt64.run, SettingUInt64.setBuf] at h
    split at h
    · simp only [Except.map] at h; cases h
    · simp only [Except.map] at h; cases h; rfl

/-- Any successful entry point of the seconds box marks it changed. -/
theorem SettingSeconds.run_ok_changed_sec (s : SettingSeconds) (op : SecondsOp)
    (s2 : SettingSeconds) (h : s.run op = .ok s2) : s2.changed = true := by
  cases op with
  | span t => simp only [SettingSeconds.run] at h; cases h; rfl
  | native x => simp only [SettingSeconds.run] at h; cases h; rfl
  | field f =>
    simp only [SettingSeconds.run, SettingSeconds.setField] at h
    split at h
    · cases h; rfl
    · cases h
  | text t =>
    simp only [SettingSeconds.run, SettingSeconds.setString] at h
    split at h
    · cases h; rfl
    · cases h
  | stream b =>
    simp only [SettingSeconds.run, SettingSeconds.setBuf] at h
    split at h
    · simp only [Except.map] at h; cases h; rfl
    · simp only [Except.map] at h; cases h

/-- A throwing entry point of the seconds box leaves it as it was. -/
theorem SettingSeconds.run_error_state_sec (s : SettingSeconds) (op : SecondsOp) (e : Exc)
    (s2 : SettingSeconds) (h : s.run op = .error (e, s2)) : s2 = s := by
  cases op with
  | span t => simp only [SettingSeconds.run] at h; cases h
  | native x => simp only [SettingSeconds.run] at h; cases h
  | field f =>
    simp only [SettingSeconds.run, SettingSeconds.setField] at h
    split at h
    · cases h
    · cases h; rfl
  | text t =>
    simp only [SettingSeconds.run, SettingSeconds.setString] at h
    split at h
    · cases h
    · cases h; rfl
  | stream b =>
    simp only [SettingSeconds.run, SettingSeconds.setBuf] at h
    split at h
    · simp only [Except.map] at h; cases h
    · simp only [Except.map] at h; cases h; rfl

/-- Any successful entry point of the milliseconds box marks it changed. -/
theorem SettingMilliseconds.run_ok_changed_ms (s : SettingMilliseconds) (op : MillisecondsOp)
    (s2 : SettingMilliseconds) (h : s.run op = .ok s2) : s2.changed = true := by
  cases op with
  | span t => simp only [SettingMilliseconds.run] at h; cases h; rfl
  | native x => simp only [SettingMilliseconds.run] at h; cases h; rfl
  | field f =>
    simp only [SettingMilliseconds.run, SettingMilliseconds.setField] at h
    split at h
    · cases h; rfl
    · cases h
  | text t =>
    simp only [SettingMilliseconds.run, SettingMilliseconds.setString] at h
    split at h
    · cases h; rfl
    · cases h
  | stream b =>
    simp only [SettingMilliseconds.run, SettingMilliseconds.setBuf] at h
    split at h
    · simp only [Except.map] at h; cases h; rfl
    · simp only [Except.map] at h; cases h

/-- A throwing entry point of the milliseconds box leaves it as it was. -/
theorem SettingMilliseconds.run_error_state_ms (s : SettingMilliseconds) (op : MillisecondsOp)
    (e : Exc) (s2 : SettingMilliseconds) (h : s.run op = .error (e, s2)) : s2 = s := by
  cases op with
  | span t => simp only [SettingMilliseconds.run] at h; cases h
  | native x => simp only [SettingMilliseconds.run] at h; cases h
  | field f =>
    simp only [SettingMilliseconds.run, SettingMilliseconds.setField] at h
    split at h
    · cases h
    · cases h; rfl
  | text t =>
    simp only [SettingMilliseconds.run, SettingMilliseconds.setString] at h
    split at h
    · cases h
    · cases h; rfl
  | stream b =>
    simp only [SettingMilliseconds.run, SettingMilliseconds.setBuf] at h
    split at h
    · simp only [Except.map] at h; cases h
    · simp only [Except.map] at h; cases h; rfl

/-- A successful text `set` on the float box marks it changed. -/
theorem SettingFloat.setString_ok_changed_float (s : SettingFloat) (t : String)
    (s2 : SettingFloat) (h : s.setString t = .ok s2) : s2.changed = true := by
  simp only [SettingFloat.setString] at h
  split at h
  · cases h; rfl
  · cases h

/-- A throwing text `set` on the float box leaves it as it was. -/
theorem SettingFloat.setString_error_state_float (s : SettingFloat) (t : String) (e : Exc)
    (s2 : SettingFloat) (h : s.setString t = .error (e, s2)) : s2 = s := by
  simp only [SettingFloat.setString] at h
  split at h
  · cases h
  · cases h; rfl

/-- A successful variant `set` on the float box marks it changed. -/
theorem SettingFloat.setField_ok_changed (s : SettingFloat) (f : Field)
    (s2 : SettingFloat) (h : s.setField f = .ok s2) : s2.changed = true := by
  simp only [SettingFloat.setField] at h
  split at h
  · split at h
    · cases h; rfl
    · cases h
  · split at h
    · split at h
      · cases h; rfl
      · cases h
    · split at h
      · split at h
        · cases h; rfl
        · cases h
      · cases h

/-- A throwing variant `set` on the float box leaves it as it was. -/
theorem SettingFloat.setField_error_state (s : SettingFloat) (f : Field) (e : Exc)
    (s2 : SettingFloat) (h : s.setField f = .error (e, s2)) : s2 = s := by
  simp only [SettingFloat.setField] at h
  split at h
  · split at h
    · cases h
    · cases h; rfl
  · split at h
    · split at h
      · cases h
      · cases h; rfl
    · split at h
      · split at h
        · cases h
        · cases h; rfl
      · cases h; rfl

/-- Any successful entry point of the float box marks it changed. -/
theorem SettingFloat.run_ok_changed_float (s : SettingFloat) (op : FloatOp)
    (s2 : SettingFloat) (h : s.run op = .ok s2) : s2.changed = true := by
  cases op with
  | native x => simp only [SettingFloat.run] at h; cases h; rfl
  | field f =>
    simp only [SettingFloat.run] at h
    exact SettingFloat.setField_ok_changed s f s2 h
  | text t =>
    simp only [SettingFloat.run] at h
    exact SettingFloat.setString_ok_changed_float s t s2 h
  | stream b =>
    simp only [SettingFloat.run, SettingFloat.setBuf] at h
    split at h
    next t rest heq =>
      cases hss : s.setString t with
      | error e2 => rw [hss] at h; simp only [Except.map] at h; cases h
      | ok s3 =>
        rw [hss] at h
        simp only [Except.map] at h
        cases h
        exact SettingFloat.setString_ok_changed_float s t _ hss
    next e3 heq =>
      simp only [Except.map] at h; cases h

/-- A throwing entry point of the float box leaves it as it was. -/
theorem SettingFloat.run_error_state_float (s : SettingFloat) (op : FloatOp) (e : Exc)
    (s2 : SettingFloat) (h : s.run op = .error (e, s2)) : s2 = s := by
  cases op with
  | native x => simp only [SettingFloat.run] at h; cases h
  | field f =>
    simp only [SettingFloat.run] at h
    exact SettingFloat.setField_error_state s f e s2 h
  | text t =>
    simp only [SettingFloat.run] at h
    exact SettingFloat.setString_error_state_float s t e s2 h
  | stream b =>
    simp only [SettingFloat.run, SettingFloat.setBuf] at h
    split at h
    next t rest heq =>
      cases hss : s.setString t with
      | error e2 =>
        rw [hss] at h
        simp only [Except.map] at h
        cases h
        exact SettingFloat.setString_error_state_float s t e s2 hss
      | ok s3 => rw [hss] at h; simp only [Except.map] at h; cases h
    next e3 heq =>
      simp only [Except.map] at h; cases h; rfl

/-- A successful text `set` on the load-balancing box marks it changed. -/
theorem SettingLoadBalancing.setString_ok_changed_lb (s : SettingLoadBalancing) (t : String)
    (s2 : SettingLoadBalancing) (h : s.setString t = .ok s2) : s2.changed = true := by
  simp only [SettingLoadBalancing.setString] at h
  split at h
  · cases h; rfl
  · cases h

/-- A throwing text `set` on the load-balancing box leaves it as it was. -/
theorem SettingLoadBalancing.setString_error_state_lb (s : SettingLoadBalancing) (t : String)
    (e : Exc) (s2 : SettingLoadBalancing) (h : s.setString t = .error (e, s2)) : s2 = s := by
  simp only [SettingLoadBalancing.setString] at h
  split at h
  · cases h
  · cases h; rfl

/-- Any successful entry point of the load-balancing box marks it changed. -/
theorem SettingLoadBalancing.run_ok_changed_lb (s : SettingLoadBalancing) (op : LoadBalancingOp)
    (s2 : SettingLoadBalancing) (h : s.run op = .ok s2) : s2.changed = true := by
  cases op with
  | native x => simp only [SettingLoadBalancing.run] at h; cases h; rfl
  | field f =>
    simp only [SettingLoadBalancing.run, SettingLoadBalancing.setField] at h
    split at h
    next t heq => exact SettingLoadBalancing.setString_ok_changed_lb s t s2 h
    next e2 heq => cases h
  | text t =>
    simp only [SettingLoadBalancing.run] at h
    exact SettingLoadBalancing.setString_ok_changed_lb s t s2 h
  | stream b =>
    simp only [SettingLoadBalancing.run, SettingLoadBalancing.setBuf] at h
    split at h
    next t rest heq =>
      cases hss : s.setString t with
      | error e2 => rw [hss] at h; simp only [Except.map] at h; cases h
      | ok s3 =>
        rw [hss] at h
        simp only [Except.map] at h
        cases h
        exact SettingLoadBalancing.setString_ok_changed_lb s t _ hss
    next e3 heq =>
      simp only [Except.map] at h; cases h

/-- A throwing entry point of the load-balancing box leaves it as it was. -/
theorem SettingLoadBalancing.run_error_state_lb (s : SettingLoadBalancing) (op : LoadBalancingOp)
    (e : Exc) (s2 : SettingLoadBalancing) (h : s.run op = .error (e, s2)) : s2 = s := by
  cases op with
  | native x => simp only [SettingLoadBalancing.run] at h; cases h
  | field f =>
    simp only [SettingLoadBalancing.run, SettingLoadBalancing.setField] at h
    split at h
    next t heq => exact SettingLoadBalancing.setString_error_state_lb s t e s2 h
    next e2 heq => cases h; rfl
  | text t =>
    simp only [SettingLoadBalancing.run] at h
    exact SettingLoadBalancing.setString_error_state_lb s t e s2 h
  | stream b =>
    simp only [SettingLoadBalancing.run, SettingLoadBalancing.setBuf] at h
    split at h
    next t rest heq =>
      cases hss : s.setString t with
      | error e2 =>
        rw [hss] at h
        simp only [Except.map] at h
        cases h
        exact SettingLoadBalancing.setString_error_state_lb s t e s2 hss
      | ok s3 => rw [hss] at h; simp only [Except.map] at h; cases h
    next e3 heq =>
      simp only [Except.map] at h; cases h; rfl

/-- A successful text `set` on the totals-mode box marks it changed. -/
theorem SettingTotalsMode.setString_ok_changed_tm (s : SettingTotalsMode) (t : String)
    (s2 : SettingTotalsMode) (h : s.setString t = .ok s2) : s2.changed = true := by
  simp only [SettingTotalsMode.setString] at h
  split at h
  · cases h; rfl
  · cases h

/-- A throwing text `set` on the totals-mode box leaves it as it was. -/
theorem SettingTotalsMode.setString_error_state_tm (s : SettingTotalsMode) (t : String)
    (e : Exc) (s2 : SettingTotalsMode) (h : s.setString t = .error (e, s2)) : s2 = s := by
  simp only [SettingTotalsMode.setString] at h
  split at h
  · cases h
  · cases h; rfl

/-- Any successful entry point of the totals-mode box marks it changed. -/
theorem SettingTotalsMode.run_ok_changed_tm (s : SettingTotalsMode) (op : TotalsModeOp)
    (s2 : SettingTotalsMode) (h : s.run op = .ok s2) : s2.changed = true := by
  cases op with
  | native x => simp only [SettingTotalsMode.run] at h; cases h; rfl
  | field f =>
    simp only [SettingTotalsMode.run, SettingTotalsMode.setField] at h
    split at h
    next t heq => exact SettingTotalsMode.setString_ok_changed_tm s t s2 h
    next e2 heq => cases h
  | text t =>
    simp only [SettingTotalsMode.run] at h
    exact SettingTotalsMode.setString_ok_changed_tm s t s2 h
  | stream b =>
    simp only [SettingTotalsMode.run, SettingTotalsMode.setBuf] at h
    split at h
    next t rest heq =>
      cases hss : s.setString t with
      | error e2 => rw [hss] at h; simp only [Except.map] at h; cases h
      | ok s3 =>
        rw [hss] at h
        simp only [Except.map] at h
        cases h
        exact SettingTotalsMode.setString_ok_changed_tm s t _ hss
    next e3 heq =>
      simp only [Except.map] at h; cases h

/-- A throwing entry point of the totals-mode box leaves it as it was. -/
theorem SettingTotalsMode.run_error_state_tm (s : SettingTotalsMode) (op : TotalsModeOp)
    (e : Exc) (s2 : SettingTotalsMode) (h : s.run op = .error (e, s2)) : s2 = s := by
  cases op with
  | native x => simp only [SettingTotalsMode.run] at h; cases h
  | field f =>
    simp only [SettingTotalsMode.run, SettingTotalsMode.setField] at h
    split at h
    next t heq => exact SettingTotalsMode.setString_error_state_tm s t e s2 h
    next e2 heq => cases h; rfl
  | text t =>
    simp only [SettingTotalsMode.run] at h
    exact SettingTotalsMode.setString_error_state_tm s t e s2 h
  | stream b =>
    simp only [SettingTotalsMode.run, SettingTotalsMode.setBuf] at h
    split at h
    next t rest heq =>
      cases hss : s.setString t with
      | error e2 =>
        rw [hss] at h
        simp only [Except.map] at h
        cases h
        exact SettingTotalsMode.setString_error_state_tm s t e s2 hss
      | ok s3 => rw [hss] at h; simp only [Except.map] at h; cases h
    next e3 heq =>
      simp only [Except.map] at h; cases h; rfl

/-- A successful text `set` on the overflow-mode box marks it changed. -/
theorem SettingOverflowMode.setString_ok_changed_om {b : Bool} (s : SettingOverflowMode b)
    (t : String) (s2 : SettingOverflowMode b) (h : s.setString t = .ok s2) :
    s2.changed = true := by
  simp only [SettingOverflowMode.setString] at h
  split at h
  · cases h; rfl
  · cases h

/-- A throwing text `set` on the overflow-mode box leaves it as it was. -/
theorem SettingOverflowMode.setString_error_state_om {b : Bool} (s : SettingOverflowMode b)
    (t : String) (e : Exc) (s2 : SettingOverflowMode b)
    (h : s.setString t = .error (e, s2)) : s2 = s := by
  simp only [SettingOverflowMode.setString] at h
  split at h
  · cases h
  · cases h; rfl

/-- Any successful entry point of the overflow-mode box marks it changed. -/
theorem SettingOverflowMode.run_ok_changed_om {b : Bool} (s : SettingOverflowMode b)
    (op : OverflowModeOp) (s2 : SettingOverflowMode b) (h : s.run op = .ok s2) :
    s2.changed = true := by
  cases op with
  | native x => simp only [SettingOverflowMode.run] at h; cases h; rfl
  | field f =>
    simp only [SettingOverflowMode.run, SettingOverflowMode.setField] at h
    split at h
    next t heq => exact SettingOverflowMode.setString_ok_changed_om s t s2 h
    next e2 heq => cases h
  | text t =>
    simp only [SettingOverflowMode.run] at h
    exact SettingOverflowMode.setString_ok_changed_om s t s2 h
  | stream bb =>
    simp only [SettingOverflowMode.run, SettingOverflowMode.setBuf] at h
    split at h
    next t rest heq =>
      cases hss : s.setString t with
      | error e2 => rw [hss] at h; simp only [Except.map] at h; cases h
      | ok s3 =>
        rw [hss] at h
        simp only [Except.map] at h
        cases h
        exact SettingOverflowMode.setString_ok_changed_om s t _ hss
    next e3 heq =>
      simp only [Except.map] at h; cases h

/-- A throwing entry point of the overflow-mode box leaves it as it was. -/
theorem SettingOverflowMode.run_error_state_om {b : Bool} (s : SettingOverflowMode b)
    (op : OverflowModeOp) (e : Exc) (s2 : SettingOverflowMode b)
    (h : s.run op = .error (e, s2)) : s2 = s := by
  cases op with
  | native x => simp only [SettingOverflowMode.run] at h; cases h
  | field f =>
    simp only [SettingOverflowMode.run, SettingOverflowMode.setField] at h
    split at h
    next t heq => exact SettingOverflowMode.setString_error_state_om s t e s2 h
    next e2 heq => cases h; rfl
  | text t =>
    simp only [SettingOverflowMode.run] at h
    exact SettingOverflowMode.setString_error_state_om s t e s2 h
  | stream bb =>
    simp only [SettingOverflowMode.run, SettingOverflowMode.setBuf] at h
    split at h
    next t rest heq =>
      cases hss : s.setString t with
      | error e2 =>
        rw [hss] at h
        simp only [Except.map] at h
        cases h
        exact SettingOverflowMode.setString_error_state_om s t e s2 hss
      | ok s3 => rw [hss] at h; simp only [Except.map] at h; cases h
    next e3 heq =>
      simp only [Except.map] at h; cases h; rfl

/-- No operation of the unsigned-integer box clears an already-set changed flag. -/
theorem SettingUInt64.after_mono_u64 (s : SettingUInt64) (op : UInt64Op)
    (hch : s.changed = true) : (s.after op).changed = true := by
  rw [SettingUInt64.after]
  split
  next s3 heq => exact SettingUInt64.run_ok_changed_u64 s op s3 heq
  next e s3 heq => rw [SettingUInt64.run_error_state_u64 s op e s3 heq]; exact hch

/-- No operation of the seconds box clears an already-set changed flag. -/
theorem SettingSeconds.after_mono_sec (s : SettingSeconds) (op : SecondsOp)
    (hch : s.changed = true) : (s.after op).changed = true := by
  rw [SettingSeconds.after]
  split
  next s3 heq => exact SettingSeconds.run_ok_changed_sec s op s3 heq
  next e s3 heq => rw [SettingSeconds.run_error_state_sec s op e s3 heq]; exact hch

/-- No operation of the milliseconds box clears an already-set changed flag. -/
theorem SettingMilliseconds.after_mono_ms (s : SettingMilliseconds) (op : MillisecondsOp)
    (hch : s.changed = true) : (s.after op).changed = true := by
  rw [SettingMilliseconds.after]
  split
  next s3 heq => exact SettingMilliseconds.run_ok_changed_ms s op s3 heq
  next e s3 heq => rw [SettingMilliseconds.run_error_state_ms s op e s3 heq]; exact hch

/-- No operation of the float box clears an already-set changed flag. -/
theorem SettingFloat.after_mono_float (s : SettingFloat) (op : FloatOp)
    (hch : s.changed = true) : (s.after op).changed = true := by
  rw [SettingFloat.after]
  split
  next s3 heq => exact SettingFloat.run_ok_changed_float s op s3 heq
  next e s3 heq => rw [SettingFloat.run_error_state_float s op e s3 heq]; exact hch

/-- No operation of the load-balancing box clears an already-set changed flag. -/
theorem SettingLoadBalancing.after_mono_lb (s : SettingLoadBalancing) (op : LoadBalancingOp)
    (hch : s.changed = true) : (s.after op).changed = true := by
  rw [SettingLoadBalancing.after]
  split
  next s3 heq => exact SettingLoadBalancing.run_ok_changed_lb s op s3 heq
  next e s3 heq => rw [SettingLoadBalancing.run_error_state_lb s op e s3 heq]; exact hch

/-- No operation of the totals-mode box clears an already-set changed flag. -/
theorem SettingTotalsMode.after_mono_tm (s : SettingTotalsMode) (op : TotalsModeOp)
    (hch : s.changed = true) : (s.after op).changed = true := by
  rw [SettingTotalsMode.after]
  split
  next s3 heq => exact SettingTotalsMode.run_ok_changed_tm s op s3 heq
  next e s3 heq => rw [SettingTotalsMode.run_error_state_tm s op e s3 heq]; exact hch

/-- No operation of the overflow-mode box clears an already-set changed flag. -/
theorem SettingOverflowMode.after_mono_om {b : Bool} (s : SettingOverflowMode b)
    (op : OverflowModeOp) (hch : s.changed = true) : (s.after op).changed = true := by
  rw [SettingOverflowMode.after]
  split
  next s3 heq => exact SettingOverflowMode.run_ok_changed_om s op s3 heq
  next e s3 heq => rw [SettingOverflowMode.run_error_state_om s op e s3 heq]; exact hch

/-- The validated overflow-mode lookup never returns `any` when the mode is
disallowed. -/
theorem SettingOverflowMode.getOverflowMode_false_ne_any (t : String) (m : OverflowMode)
    (h : SettingOverflowMode.getOverflowMode false t = .ok m) : ¬ m = OverflowMode.ANY := by
  simp only [SettingOverflowMode.getOverflowMode] at h
  split at h
  next mode heq =>
    split at h
    · cases h
    next hcond =>
      cases h
      intro heqany
      exact hcond ⟨heqany, trivial⟩
  next e heq => cases h

/-- A successful text `set` on the disallowing overflow-mode box never stores `any`. -/
theorem SettingOverflowMode.setString_false_ne_any (s : SettingOverflowMode false)
    (t : String) (s2 : SettingOverflowMode false) (h : s.setString t = .ok s2) :
    ¬ s2.value = OverflowMode.ANY := by
  simp only [SettingOverflowMode.setString] at h
  split at h
  next v heq =>
    cases h
    exact SettingOverflowMode.getOverflowMode_false_ne_any t v heq
  next e heq => cases h

/-- C1 counterexample: the round-trip claim fails as stated for the overflow-mode
kind.  A box with `enable_mode_any = false` holding `ANY` (constructible, since the
constructor takes any enumerator) writes the name `any` successfully, but `set` on the
produced bytes on a fresh default-constructed box of the same kind throws the
illegal-mode error, so the fresh box keeps its default instead of reproducing `ANY`. -/
theorem write_set_roundtrip_counterexample :
    (SettingOverflowMode.ofMode false OverflowMode.ANY).write = .ok [WireItem.str "any"] ∧
    (SettingOverflowMode.ofMode false OverflowMode.THROW).setBuf [WireItem.str "any"]
      = .error (⟨"Illegal overflow mode: any is only for group_by_overflow_mode",
          .ILLEGAL_OVERFLOW_MODE⟩, SettingOverflowMode.ofMode false OverflowMode.THROW) :=
  ⟨rfl, rfl⟩

/-- C1 (amended): for every setting kind, `write` followed by `set(stream)` on a
fresh default-constructed box of the same kind reproduces the original value: exactly
for the integer and float kinds; for the duration kinds exactly iff the stored span is
aligned to the native unit (whole seconds, whole milliseconds); and for the
enumerated kinds for every value of the enumeration, except that an overflow-mode box
with `enable_mode_any = false` holding `ANY` is not reproduced (its bytes are rejected
by `set`, per the counterexample).  The load-balancing and totals-mode boxes have no
default constructor, so the fresh box of those kinds is quantified over every initial
enumerator. -/
theorem write_set_roundtrip_amended :
    (∀ s : SettingUInt64,
      (SettingUInt64.ofNat 0).setBuf s.write = .ok (SettingUInt64.mk s.value true, [])) ∧
    (∀ s : SettingFloat,
      (SettingFloat.ofRat 0).setBuf s.write = .ok (SettingFloat.mk s.value true, [])) ∧
    (∀ s : SettingSeconds,
      (SettingSeconds.ofNat 0).setBuf s.write
        = .ok (SettingSeconds.mk (Timespan.ofSeconds s.value.totalSeconds 0) true, []) ∧
      (Timespan.ofSeconds s.value.totalSeconds 0 = s.value
        ↔ s.value.microseconds % 1000000 = 0)) ∧
    (∀ s : SettingMilliseconds,
      (SettingMilliseconds.ofNat 0).setBuf s.write
        = .ok (SettingMilliseconds.mk ⟨s.value.totalMilliseconds * 1000⟩ true, []) ∧
      ((⟨s.value.totalMilliseconds * 1000⟩ : Timespan) = s.value
        ↔ s.value.microseconds % 1000 = 0)) ∧
    (∀ (v : LoadBalancing) (c : Bool) (init : LoadBalancing),
      v ≤ LoadBalancing.NEAREST_HOSTNAME →
      ∃ buf, (SettingLoadBalancing.mk v c).write = .ok buf ∧
        (SettingLoadBalancing.ofMode init).setBuf buf
          = .ok (SettingLoadBalancing.mk v true, [])) ∧
    (∀ (v : TotalsMode) (c : Bool) (init : TotalsMode),
      v ≤ TotalsMode.AFTER_HAVING_AUTO →
      ∃ buf, (SettingTotalsMode.mk v c).write = .ok buf ∧
        (SettingTotalsMode.ofMode init).setBuf buf
          = .ok (SettingTotalsMode.mk v true, [])) ∧
    (∀ (b : Bool) (v : OverflowMode) (c : Bool),
      v ≤ OverflowMode.ANY → (b = true ∨ ¬ v = OverflowMode.ANY) →
      ∃ buf, ((⟨v, c⟩ : SettingOverflowMode b)).write = .ok buf ∧
        (SettingOverflowMode.ofMode b OverflowMode.THROW).setBuf buf
          = .ok ((⟨v, true⟩ : SettingOverflowMode b), [])) := by
  refine ⟨fun s => rfl, ?_, ?_, ?_, ?_, ?_, ?_⟩
  · intro s
    simp only [SettingFloat.write, SettingFloat.setBuf, readBinaryString,
      SettingFloat.setString, parseFloat_floatToString, SettingFloat.set]
  · intro s
    refine ⟨rfl, ?_⟩
    obtain ⟨⟨us⟩, c⟩ := s
    simp only [Timespan.ofSeconds, Timespan.totalSeconds, Timespan.mk.injEq]
    omega
  · intro s
    refine ⟨rfl, ?_⟩
    obtain ⟨⟨us⟩, c⟩ := s
    simp only [Timespan.totalMilliseconds, Timespan.mk.injEq]
    omega
  · intro v c init h
    have h1 : v ≤ 1 := h
    interval_cases v
    · exact ⟨[WireItem.str "random"], rfl, rfl⟩
    · exact ⟨[WireItem.str "nearest_hostname"], rfl, rfl⟩
  · intro v c init h
    have h1 : v ≤ 3 := h
    interval_cases v
    · exact ⟨[WireItem.str "before_having"], rfl, rfl⟩
    · exact ⟨[WireItem.str "after_having_inclusive"], rfl, rfl⟩
    · exact ⟨[WireItem.str "after_having_exclusive"], rfl, rfl⟩
    · exact ⟨[WireItem.str "after_having_auto"], rfl, rfl⟩
  · intro b v c h1 h2
    have h1x : v ≤ 2 := h1
    cases b with
    | false =>
      have hne : ¬ v = 2 := by
        rcases h2 with h2 | h2
        · exact absurd h2 (by decide)
        · exact h2
      interval_cases v
      · exact ⟨[WireItem.str "throw"], rfl, rfl⟩
      · exact ⟨[WireItem.str "break"], rfl, rfl⟩
      · exact absurd rfl hne
    | true =>
      interval_cases v
      · exact ⟨[WireItem.str "throw"], rfl, rfl⟩
      · exact ⟨[WireItem.str "break"], rfl, rfl⟩
      · exact ⟨[WireItem.str "any"], rfl, rfl⟩

/-- C1 witness: the amended round-trip theorem applied at concrete enumerated boxes,
discharging its range and legality hypotheses. -/
theorem write_set_roundtrip_witness :
    (LoadBalancing.NEAREST_HOSTNAME ≤ LoadBalancing.NEAREST_HOSTNAME ∧
      ∃ buf, (SettingLoadBalancing.mk LoadBalancing.NEAREST_HOSTNAME false).write
          = .ok buf ∧
        (SettingLoadBalancing.ofMode LoadBalancing.RANDOM).setBuf buf
          = .ok (SettingLoadBalancing.mk LoadBalancing.NEAREST_HOSTNAME true, [])) ∧
    (TotalsMode.AFTER_HAVING_AUTO ≤ TotalsMode.AFTER_HAVING_AUTO ∧
      ∃ buf, (SettingTotalsMode.mk TotalsMode.AFTER_HAVING_AUTO false).write = .ok buf ∧
        (SettingTotalsMode.ofMode TotalsMode.BEFORE_HAVING).setBuf buf
          = .ok (SettingTotalsMode.mk TotalsMode.AFTER_HAVING_AUTO true, [])) ∧
    (OverflowMode.BREAK ≤ OverflowMode.ANY ∧
      (false = true ∨ ¬ OverflowMode.BREAK = OverflowMode.ANY) ∧
      ∃ buf, ((⟨OverflowMode.BREAK, false⟩ : SettingOverflowMode false)).write = .ok buf ∧
        (SettingOverflowMode.ofMode false OverflowMode.THROW).setBuf buf
          = .ok ((⟨OverflowMode.BREAK, true⟩ : SettingOverflowMode false), [])) :=
  ⟨⟨by decide, write_set_roundtrip_amended.2.2.2.2.1 LoadBalancing.NEAREST_HOSTNAME false
      LoadBalancing.RANDOM (by decide)⟩,
   ⟨by decide, write_set_roundtrip_amended.2.2.2.2.2.1 TotalsMode.AFTER_HAVING_AUTO false
      TotalsMode.BEFORE_HAVING (by decide)⟩,
   ⟨by decide, Or.inr (by decide),
    write_set_roundtrip_amended.2.2.2.2.2.2 false OverflowMode.BREAK false (by decide)
      (Or.inr (by decide))⟩⟩

/-- C2: for every setting box the changed flag is false immediately after
construction (non-enumerated boxes), becomes true after every successful `set` call
through any representation — including re-setting the value the box already holds,
since the success cases are quantified over every starting state — and is never reset
to false by any `set` operation, whether it returns or throws. -/
theorem changed_flag_contract :
    ((∀ x, (SettingUInt64.ofNat x).changed = false) ∧
     (∀ x, (SettingSeconds.ofNat x).changed = false) ∧
     (∀ x, (SettingMilliseconds.ofNat x).changed = false) ∧
     (∀ x, (SettingFloat.ofRat x).changed = false)) ∧
    ((∀ (s : SettingUInt64) (op : UInt64Op) (s2 : SettingUInt64),
        s.run op = .ok s2 → s2.changed = true) ∧
     (∀ (s : SettingSeconds) (op : SecondsOp) (s2 : SettingSeconds),
        s.run op = .ok s2 → s2.changed = true) ∧
     (∀ (s : SettingMilliseconds) (op : MillisecondsOp) (s2 : SettingMilliseconds),
        s.run op = .ok s2 → s2.changed = true) ∧
     (∀ (s : SettingFloat) (op : FloatOp) (s2 : SettingFloat),
        s.run op = .ok s2 → s2.changed = true) ∧
     (∀ (s : SettingLoadBalancing) (op : LoadBalancingOp) (s2 : SettingLoadBalancing),
        s.run op = .ok s2 → s2.changed = true) ∧
     (∀ (s : SettingTotalsMode) (op : TotalsModeOp) (s2 : SettingTotalsMode),
        s.run op = .ok s2 → s2.changed = true) ∧
     (∀ (b : Bool) (s : SettingOverflowMode b) (op : OverflowModeOp)
        (s2 : SettingOverflowMode b), s.run op = .ok s2 → s2.changed = true)) ∧
    ((∀ (s : SettingUInt64) (op : UInt64Op),
        s.changed = true → (s.after op).changed = true) ∧
     (∀ (s : SettingSeconds) (op : SecondsOp),
        s.changed = true → (s.after op).changed = true) ∧
     (∀ (s : SettingMilliseconds) (op : MillisecondsOp),
        s.changed = true → (s.after op).changed = true) ∧
     (∀ (s : SettingFloat) (op : FloatOp),
        s.changed = true → (s.after op).changed = true) ∧
     (∀ (s : SettingLoadBalancing) (op : LoadBalancingOp),
        s.changed = true → (s.after op).changed = true) ∧
     (∀ (s : SettingTotalsMode) (op : TotalsModeOp),
        s.changed = true → (s.after op).changed = true) ∧
     (∀ (b : Bool) (s : SettingOverflowMode b) (op : OverflowModeOp),
        s.changed = true → (s.after op).changed = true)) :=
  ⟨⟨fun _ => rfl, fun _ => rfl, fun _ => rfl, fun _ => rfl⟩,
   ⟨SettingUInt64.run_ok_changed_u64, SettingSeconds.run_ok_changed_sec,
    SettingMilliseconds.run_ok_changed_ms, SettingFloat.run_ok_changed_float,
    SettingLoadBalancing.run_ok_changed_lb, SettingTotalsMode.run_ok_changed_tm,
    fun _ => SettingOverflowMode.run_ok_changed_om⟩,
   ⟨SettingUInt64.after_mono_u64, SettingSeconds.after_mono_sec,
    SettingMilliseconds.after_mono_ms, SettingFloat.after_mono_float,
    SettingLoadBalancing.after_mono_lb, SettingTotalsMode.after_mono_tm,
    fun _ => SettingOverflowMode.after_mono_om⟩⟩

/-- C2 witness: the changed-flag contract applied at concrete inputs — re-setting the
value an unsigned-integer box already holds keeps changed true, and a failing text
`set` on an already-changed float box does not clear its flag. -/
theorem changed_flag_witness :
    ((SettingUInt64.mk 7 true).run (UInt64Op.native 7) = .ok (SettingUInt64.mk 7 true) ∧
      (SettingUInt64.mk 7 true).changed = true) ∧
    ((SettingFloat.mk 1 true).changed = true ∧
      ((SettingFloat.mk 1 true).after (FloatOp.text "oops")).changed = true) :=
  ⟨⟨rfl, changed_flag_contract.2.1.1 (SettingUInt64.mk 7 true) (UInt64Op.native 7)
      (SettingUInt64.mk 7 true) rfl⟩,
   ⟨rfl, changed_flag_contract.2.2.2.2.2.1 (SettingFloat.mk 1 true)
      (FloatOp.text "oops") rfl⟩⟩

/-- C3: for every setting box and every `set` entry point, a call that fails with any
error leaves the box exactly as it was before the call — the state carried out by the
thrown exception is the state the box had on entry. -/
theorem failing_set_no_mutation :
    (∀ (s : SettingUInt64) (op : UInt64Op) (e : Exc) (s2 : SettingUInt64),
      s.run op = .error (e, s2) → s2 = s) ∧
    (∀ (s : SettingSeconds) (op : SecondsOp) (e : Exc) (s2 : SettingSeconds),
      s.run op = .error (e, s2) → s2 = s) ∧
    (∀ (s : SettingMilliseconds) (op : MillisecondsOp) (e : Exc) (s2 : SettingMilliseconds),
      s.run op = .error (e, s2) → s2 = s) ∧
    (∀ (s : SettingFloat) (op : FloatOp) (e : Exc) (s2 : SettingFloat),
      s.run op = .error (e, s2) → s2 = s) ∧
    (∀ (s : SettingLoadBalancing) (op : LoadBalancingOp) (e : Exc) (s2 : SettingLoadBalancing),
      s.run op = .error (e, s2) → s2 = s) ∧
    (∀ (s : SettingTotalsMode) (op : TotalsModeOp) (e : Exc) (s2 : SettingTotalsMode),
      s.run op = .error (e, s2) → s2 = s) ∧
    (∀ (b : Bool) (s : SettingOverflowMode b) (op : OverflowModeOp) (e : Exc)
      (s2 : SettingOverflowMode b), s.run op = .error (e, s2) → s2 = s) :=
  ⟨SettingUInt64.run_error_state_u64, SettingSeconds.run_error_state_sec,
   SettingMilliseconds.run_error_state_ms, SettingFloat.run_error_state_float,
   SettingLoadBalancing.run_error_state_lb, SettingTotalsMode.run_error_state_tm,
   fun _ => SettingOverflowMode.run_error_state_om⟩

/-- C3 witness: the no-mutation theorem applied to a concrete failing stream read on
the unsigned-integer box. -/
theorem failing_set_no_mutation_witness :
    (SettingUInt64.ofNat 3).run (UInt64Op.stream [])
      = .error (⟨"Cannot read varint from buffer", .CANNOT_READ⟩, SettingUInt64.ofNat 3) ∧
    SettingUInt64.ofNat 3 = SettingUInt64.ofNat 3 :=
  ⟨rfl, failing_set_no_mutation.1 (SettingUInt64.ofNat 3) (UInt64Op.stream [])
    ⟨"Cannot read varint from buffer", .CANNOT_READ⟩ (SettingUInt64.ofNat 3) rfl⟩

/-- C4: textual `set("any")` on an overflow-mode box with `enable_mode_any = false`
fails with the illegal-value error naming the group-by variant and leaves the box
unchanged (the error carries the entry state); the same call with
`enable_mode_any = true` succeeds, stores `ANY` and marks the box changed. -/
theorem overflow_any_text_legality :
    (∀ s : SettingOverflowMode false,
      s.setString "any"
        = .error (⟨"Illegal overflow mode: any is only for group_by_overflow_mode",
            .ILLEGAL_OVERFLOW_MODE⟩, s)) ∧
    (∀ s : SettingOverflowMode true,
      s.setString "any" = .ok (⟨OverflowMode.ANY, true⟩ : SettingOverflowMode true)) :=
  ⟨fun _ => rfl, fun _ => rfl⟩

/-- C5 counterexample: the native-enum entry point of the overflow-mode box performs
no legality check, so `set(ANY)` on a box with `enable_mode_any = false` succeeds and
stores `ANY` — a reachable state holding `any`, contradicting the claim that every
entry point rejects it. -/
theorem overflow_any_invariant_counterexample :
    ((SettingOverflowMode.ofMode false OverflowMode.THROW).set OverflowMode.ANY).value
        = OverflowMode.ANY ∧
    ((SettingOverflowMode.ofMode false OverflowMode.THROW).set OverflowMode.ANY).changed
        = true :=
  ⟨rfl, rfl⟩

/-- C5 (amended): on an overflow-mode box with `enable_mode_any = false`, the
validated entry points — text, tagged variant, and binary stream, which all funnel
through the checked name lookup — can never make the stored value `ANY`; the native
enum `set` (and the assignment operator built on it) performs no such check. -/
theorem overflow_any_invariant_amended :
    (∀ (s : SettingOverflowMode false) (t : String) (s2 : SettingOverflowMode false),
      s.setString t = .ok s2 → ¬ s2.value = OverflowMode.ANY) ∧
    (∀ (s : SettingOverflowMode false) (f : Field) (s2 : SettingOverflowMode false),
      s.setField f = .ok s2 → ¬ s2.value = OverflowMode.ANY) ∧
    (∀ (s : SettingOverflowMode false) (b : Buf) (s2 : SettingOverflowMode false) (r : Buf),
      s.setBuf b = .ok (s2, r) → ¬ s2.value = OverflowMode.ANY) := by
  refine ⟨SettingOverflowMode.setString_false_ne_any, ?_, ?_⟩
  · intro s f s2 h
    simp only [SettingOverflowMode.setField] at h
    split at h
    next t heq => exact SettingOverflowMode.setString_false_ne_any s t s2 h
    next e heq => cases h
  · intro s b s2 r h
    simp only [SettingOverflowMode.setBuf] at h
    split at h
    next t rest heq =>
      cases hss : s.setString t with
      | error e2 => rw [hss] at h; cases h
      | ok s3 =>
        rw [hss] at h
        cases h
        exact SettingOverflowMode.setString_false_ne_any s t _ hss
    next e3 heq => cases h

/-- C5 witness: the amended invariant applied to a concrete successful text `set`. -/
theorem overflow_any_invariant_witness :
    (SettingOverflowMode.ofMode false OverflowMode.THROW).setString "break"
        = .ok (⟨OverflowMode.BREAK, true⟩ : SettingOverflowMode false) ∧
    ¬ ((⟨OverflowMode.BREAK, true⟩ : SettingOverflowMode false)).value = OverflowMode.ANY :=
  ⟨rfl, overflow_any_invariant_amended.1 (SettingOverflowMode.ofMode false OverflowMode.THROW)
    "break" (⟨OverflowMode.BREAK, true⟩ : SettingOverflowMode false) rfl⟩

/-- C6: `write` on a duration box emits a single varint equal to the stored span
converted to the native unit — whole seconds for the seconds box, whole milliseconds
for the milliseconds box — truncating the sub-unit remainder of the internal
microsecond tick count rather than writing the tick count itself; in particular a
milliseconds box constructed from native count 1500 exposes totalMilliseconds 1500
and writes varint 1500. -/
theorem duration_write_native_unit :
    (∀ s : SettingSeconds,
      s.write = [WireItem.vuint (s.value.microseconds / 1000000)]) ∧
    (∀ s : SettingMilliseconds,
      s.write = [WireItem.vuint (s.value.microseconds / 1000)]) ∧
    (SettingMilliseconds.ofNat 1500).totalMilliseconds = 1500 ∧
    (SettingMilliseconds.ofNat 1500).write = [WireItem.vuint 1500] :=
  ⟨fun _ => rfl, fun _ => rfl, rfl, rfl⟩

/-- C7: `set(variant)` on a float box accepts unsigned-integer, signed-integer and
float variants, widening each to the stored float value (an unsigned 5 yields 5.0),
and fails with a type-mismatch error naming the offending type for any other stored
type, such as a string (or null). -/
theorem float_variant_widening :
    (∀ (s : SettingFloat) (n : Nat),
      s.setField (Field.uint64 n) = .ok (SettingFloat.mk (n : Rat) true)) ∧
    (∀ (s : SettingFloat) (i : Int),
      s.setField (Field.int64 i) = .ok (SettingFloat.mk (i : Rat) true)) ∧
    (∀ (s : SettingFloat) (q : Rat),
      s.setField (Field.float64 q) = .ok (SettingFloat.mk q true)) ∧
    (∀ s : SettingFloat,
      s.setField (Field.uint64 5) = .ok (SettingFloat.mk (5 : Rat) true)) ∧
    (∀ (s : SettingFloat) (t : String),
      s.setField (Field.str t)
        = .error (⟨"Bad type of setting. Expected UInt64, Int64 or Float64, got String",
            .TYPE_MISMATCH⟩, s)) ∧
    (∀ s : SettingFloat,
      s.setField Field.null
        = .error (⟨"Bad type of setting. Expected UInt64, Int64 or Float64, got Null",
            .TYPE_MISMATCH⟩, s)) :=
  ⟨fun _ _ => rfl, fun _ _ => rfl, fun _ _ => rfl, fun _ => rfl, fun _ _ => rfl, fun _ => rfl⟩

/-- C8: textual `set` on an enumerated box with a text matching no entry of its name
table fails with the unknown-value error whose message carries the offending text and
the full list of legal names; in particular `set("bogus")` on a load-balancing box
produces a message in which both `random` and `nearest_hostname` occur. -/
theorem unknown_enum_text_rejected :
    (∀ (s : SettingLoadBalancing) (t : String),
      ¬ t = "random" → ¬ t = "nearest_hostname" →
      s.setString t = .error (⟨"Unknown load balancing mode: " ++ t
        ++ ", must be one of random, nearest_hostname", .UNKNOWN_LOAD_BALANCING⟩, s)) ∧
    (∀ (s : SettingTotalsMode) (t : String),
      ¬ t = "before_having" → ¬ t = "after_having_exclusive" →
      ¬ t = "after_having_inclusive" → ¬ t = "after_having_auto" →
      s.setString t = .error (⟨"Unknown totals mode: " ++ t
        ++ ", must be one of before_having, after_having_exclusive, after_having_inclusive, after_having_auto",
        .UNKNOWN_TOTALS_MODE⟩, s)) ∧
    (∀ (b : Bool) (s : SettingOverflowMode b) (t : String),
      ¬ t = "throw" → ¬ t = "break" → ¬ t = "any" →
      s.setString t = .error (⟨"Unknown overflow mode: " ++ t
        ++ ", must be one of throw, break, any", .UNKNOWN_OVERFLOW_MODE⟩, s)) ∧
    (∃ pre mid post : String,
      ("Unknown load balancing mode: " ++ "bogus"
          ++ ", must be one of random, nearest_hostname" : String)
        = pre ++ "random" ++ mid ++ "nearest_hostname" ++ post ∧
      ∀ s : SettingLoadBalancing,
        s.setString "bogus" = .error (⟨"Unknown load balancing mode: " ++ "bogus"
          ++ ", must be one of random, nearest_hostname", .UNKNOWN_LOAD_BALANCING⟩, s)) := by
  refine ⟨?_, ?_, ?_,
    ⟨"Unknown load balancing mode: bogus, must be one of ", ", ", "", by decide,
      fun s => rfl⟩⟩
  · intro s t h1 h2
    simp only [SettingLoadBalancing.setString, SettingLoadBalancing.getLoadBalancing,
      if_neg h1, if_neg h2]
  · intro s t h1 h2 h3 h4
    simp only [SettingTotalsMode.setString, SettingTotalsMode.getTotalsMode,
      if_neg h1, if_neg h2, if_neg h3, if_neg h4]
  · intro b s t h1 h2 h3
    simp only [SettingOverflowMode.setString, SettingOverflowMode.getOverflowMode,
      SettingOverflowMode.getOverflowModeForGroupBy, if_neg h1, if_neg h2, if_neg h3]

/-- C8 witness: the rejection theorem applied at the text `bogus`, which matches no
name table. -/
theorem unknown_enum_text_rejected_witness :
    (¬ "bogus" = "random" ∧ ¬ "bogus" = "nearest_hostname") ∧
    (SettingLoadBalancing.ofMode LoadBalancing.RANDOM).setString "bogus"
      = .error (⟨"Unknown load balancing mode: " ++ "bogus"
          ++ ", must be one of random, nearest_hostname", .UNKNOWN_LOAD_BALANCING⟩,
        SettingLoadBalancing.ofMode LoadBalancing.RANDOM) :=
  ⟨⟨by decide, by decide⟩,
   unknown_enum_text_rejected.1 (SettingLoadBalancing.ofMode LoadBalancing.RANDOM)
    "bogus" (by decide) (by decide)⟩

/-- C9: on every enumerated box, `toString` — and hence `write`, which renders
through it — fails with the defensive out-of-range error when the stored ordinal lies
outside the known range of the enumeration, instead of performing an unchecked
name-table lookup. -/
theorem enum_out_of_range_toString :
    (∀ s : SettingLoadBalancing, LoadBalancing.NEAREST_HOSTNAME < s.value →
      s.toString = .error ⟨"Unknown load balancing mode", .UNKNOWN_OVERFLOW_MODE⟩ ∧
      s.write = .error ⟨"Unknown load balancing mode", .UNKNOWN_OVERFLOW_MODE⟩) ∧
    (∀ s : SettingTotalsMode, TotalsMode.AFTER_HAVING_AUTO < s.value →
      s.toString = .error ⟨"Unknown TotalsMode enum value: " ++ Nat.repr s.value,
        .ARGUMENT_OUT_OF_BOUND⟩ ∧
      s.write = .error ⟨"Unknown TotalsMode enum value: " ++ Nat.repr s.value,
        .ARGUMENT_OUT_OF_BOUND⟩) ∧
    (∀ (b : Bool) (s : SettingOverflowMode b), OverflowMode.ANY < s.value →
      s.toString = .error ⟨"Unknown overflow mode", .UNKNOWN_OVERFLOW_MODE⟩ ∧
      s.write = .error ⟨"Unknown overflow mode", .UNKNOWN_OVERFLOW_MODE⟩) := by
  refine ⟨?_, ?_, ?_⟩
  · intro s h
    have ht : s.toString = .error ⟨"Unknown load balancing mode", .UNKNOWN_OVERFLOW_MODE⟩ := by
      simp only [SettingLoadBalancing.toString]
      rw [if_pos (Or.inr h)]
    exact ⟨ht, by simp only [SettingLoadBalancing.write, ht]⟩
  · intro s h
    have h4 : 3 < s.value := h
    have ht : s.toString = .error ⟨"Unknown TotalsMode enum value: " ++ Nat.repr s.value,
        .ARGUMENT_OUT_OF_BOUND⟩ := by
      simp only [SettingTotalsMode.toString, TotalsMode.BEFORE_HAVING,
        TotalsMode.AFTER_HAVING_EXCLUSIVE, TotalsMode.AFTER_HAVING_INCLUSIVE,
        TotalsMode.AFTER_HAVING_AUTO]
      rw [if_neg (show ¬ s.value = 0 by intro he; rw [he] at h4; exact absurd h4 (by decide)),
        if_neg (show ¬ s.value = 2 by intro he; rw [he] at h4; exact absurd h4 (by decide)),
        if_neg (show ¬ s.value = 1 by intro he; rw [he] at h4; exact absurd h4 (by decide)),
        if_neg (show ¬ s.value = 3 by intro he; rw [he] at h4; exact absurd h4 (by decide))]
    exact ⟨ht, by simp only [SettingTotalsMode.write, ht]⟩
  · intro b s h
    have ht : s.toString = .error ⟨"Unknown overflow mode", .UNKNOWN_OVERFLOW_MODE⟩ := by
      simp only [SettingOverflowMode.toString]
      rw [if_pos (Or.inr h)]
    exact ⟨ht, by simp only [SettingOverflowMode.write, ht]⟩

/-- C9 witness: the out-of-range theorem applied to boxes holding the ordinal 5,
which lies outside all three enumerations. -/
theorem enum_out_of_range_toString_witness :
    (LoadBalancing.NEAREST_HOSTNAME < (SettingLoadBalancing.mk 5 false).value ∧
      (SettingLoadBalancing.mk 5 false).toString
        = .error ⟨"Unknown load balancing mode", .UNKNOWN_OVERFLOW_MODE⟩ ∧
      (SettingLoadBalancing.mk 5 false).write
        = .error ⟨"Unknown load balancing mode", .UNKNOWN_OVERFLOW_MODE⟩) ∧
    (TotalsMode.AFTER_HAVING_AUTO < (SettingTotalsMode.mk 5 false).value ∧
      (SettingTotalsMode.mk 5 false).toString
        = .error ⟨"Unknown TotalsMode enum value: "
            ++ Nat.repr (SettingTotalsMode.mk 5 false).value, .ARGUMENT_OUT_OF_BOUND⟩ ∧
      (SettingTotalsMode.mk 5 false).write
        = .error ⟨"Unknown TotalsMode enum value: "
            ++ Nat.repr (SettingTotalsMode.mk 5 false).value, .ARGUMENT_OUT_OF_BOUND⟩) ∧
    (OverflowMode.ANY < ((⟨5, false⟩ : SettingOverflowMode false)).value ∧
      ((⟨5, false⟩ : SettingOverflowMode false)).toString
        = .error ⟨"Unknown overflow mode", .UNKNOWN_OVERFLOW_MODE⟩ ∧
      ((⟨5, false⟩ : SettingOverflowMode false)).write
        = .error ⟨"Unknown overflow mode", .UNKNOWN_OVERFLOW_MODE⟩) :=
  ⟨⟨by decide, enum_out_of_range_toString.1 (SettingLoadBalancing.mk 5 false) (by decide)⟩,
   ⟨by decide, enum_out_of_range_toString.2.1 (SettingTotalsMode.mk 5 false) (by decide)⟩,
   ⟨by decide, enum_out_of_range_toString.2.2 false (⟨5, false⟩ : SettingOverflowMode false)
      (by decide)⟩⟩

/-- C10: every enumerated setting box, although constructed from an explicit enum
value, has `changed = false` immediately after construction — supplying the initial
value through the constructor does not count as a `set`. -/
theorem enum_boxes_constructed_unchanged :
    (∀ x : LoadBalancing, (SettingLoadBalancing.ofMode x).changed = false) ∧
    (∀ x : TotalsMode, (SettingTotalsMode.ofMode x).changed = false) ∧
    (∀ (b : Bool) (x : OverflowMode), (SettingOverflowMode.ofMode b x).changed = false) :=
  ⟨fun _ => rfl, fun _ => rfl, fun _ _ => rfl⟩

end DB
